import Mathlib

/-!
Verification of the query-and-serialization core of the StackFast
`developer-tools-api` (Flask + SQLAlchemy + SQLite) against its
natural-language specification.

The Python sources are embedded shallowly:
* `PyVal` models the Python/JSON runtime values flowing through the service;
* `json.loads` / `json.dumps` model the strict-mode behaviour of Python's
  `json` module on those values;
* `DeveloperTool` models one row of the `developer_tools` table
  (`src/models/tool.py`), with SQLite's flexible typing reflected by
  storing column contents as `PyVal`;
* the route handlers of `src/routes/tools.py` become pure functions from a
  `Store` (the table contents) and the parsed request parameters to a
  response value and a new `Store`.
-/

namespace StackFast

/-- Python runtime values, as relevant to this service: the values produced
by `json.loads`, received as JSON request payloads, and stored in SQLite
columns.  Floats are kept as their source lexeme: no claim depends on float
arithmetic. -/
inductive PyVal where
  | pynone : PyVal
  | pybool : Bool → PyVal
  | pyint : Int → PyVal
  | pyfloat : String → PyVal
  | pystr : String → PyVal
  | pylist : List PyVal → PyVal
  | pydict : List (String × PyVal) → PyVal

mutual

/-- Structural equality of `PyVal`s: models both Python `==` and the SQL `=`
comparison on stored values, for the comparisons this service performs
(equality between values of the same shape; Python's numeric cross-type
equalities are irrelevant to the string keys compared here). -/
def pyEq : PyVal → PyVal → Bool
  | PyVal.pynone, PyVal.pynone => true
  | PyVal.pybool a, PyVal.pybool b => a = b
  | PyVal.pyint a, PyVal.pyint b => a = b
  | PyVal.pyfloat a, PyVal.pyfloat b => a = b
  | PyVal.pystr a, PyVal.pystr b => a = b
  | PyVal.pylist a, PyVal.pylist b => pyEqList a b
  | PyVal.pydict a, PyVal.pydict b => pyEqPairs a b
  | _, _ => false

/-- Elementwise equality of Python lists. -/
def pyEqList : List PyVal → List PyVal → Bool
  | [], [] => true
  | a :: as1, b :: bs1 => pyEq a b && pyEqList as1 bs1
  | _, _ => false

/-- Pairwise equality of Python dicts (as ordered pair lists). -/
def pyEqPairs : List (String × PyVal) → List (String × PyVal) → Bool
  | [], [] => true
  | (k1, v1) :: t1, (k2, v2) :: t2 => k1 = k2 && pyEq v1 v2 && pyEqPairs t1 t2
  | _, _ => false

end

mutual

/-- `pyEq` is reflexive. -/
theorem pyEq_refl : ∀ a, pyEq a a = true
  | PyVal.pynone => rfl
  | PyVal.pybool b => by simp [pyEq]
  | PyVal.pyint n => by simp [pyEq]
  | PyVal.pyfloat r => by simp [pyEq]
  | PyVal.pystr s => by simp [pyEq]
  | PyVal.pylist l => by simp [pyEq, pyEqList_refl l]
  | PyVal.pydict l => by simp [pyEq, pyEqPairs_refl l]

/-- `pyEqList` is reflexive. -/
theorem pyEqList_refl : ∀ l, pyEqList l l = true
  | [] => rfl
  | a :: t => by simp [pyEqList, pyEq_refl a, pyEqList_refl t]

/-- `pyEqPairs` is reflexive. -/
theorem pyEqPairs_refl : ∀ l, pyEqPairs l l = true
  | [] => rfl
  | (k, v) :: t => by simp [pyEqPairs, pyEq_refl v, pyEqPairs_refl t]

end

/-- JSON whitespace characters, as accepted by Python's `json.loads`. -/
def jsonWs (c : Char) : Bool :=
  c = ' ' || c = '\t' || c = '\n' || c = '\r'

/-- Drop leading JSON whitespace. -/
def skipWs : List Char → List Char
  | [] => []
  | c :: cs => if jsonWs c then skipWs cs else c :: cs

/-- Value of a hexadecimal digit. -/
def hexVal (c : Char) : Option Nat :=
  if '0' ≤ c ∧ c ≤ '9' then some (c.toNat - '0'.toNat)
  else if 'a' ≤ c ∧ c ≤ 'f' then some (c.toNat - 'a'.toNat + 10)
  else if 'A' ≤ c ∧ c ≤ 'F' then some (c.toNat - 'A'.toNat + 10)
  else none

/-- Read exactly four hexadecimal digits (the `XXXX` of a `\uXXXX` escape). -/
def parseHex4 : List Char → Option (Nat × List Char)
  | a :: b :: c :: d :: rest =>
    match hexVal a, hexVal b, hexVal c, hexVal d with
    | some x, some y, some z, some w => some (((x * 16 + y) * 16 + z) * 16 + w, rest)
    | _, _, _, _ => none
  | _ => none

/-- Translate a single-character JSON escape (the char after a backslash). -/
def escChar (c : Char) : Option Char :=
  if c = '"' then some '"'
  else if c = '\\' then some '\\'
  else if c = '/' then some '/'
  else if c = 'b' then some (Char.ofNat 8)
  else if c = 'f' then some (Char.ofNat 12)
  else if c = 'n' then some '\n'
  else if c = 'r' then some '\r'
  else if c = 't' then some '\t'
  else none

/-- Body of a JSON string literal, after the opening quote: strict mode, so
unescaped control characters are rejected.  Surrogate pairs in `\u` escapes
are combined; a lone surrogate (which Lean's `Char` cannot carry) degrades
through `Char.ofNat`. -/
def parseStringBody : Nat → List Char → Option (List Char × List Char)
  | 0, _ => none
  | Nat.succ n, cs =>
    match cs with
    | [] => none
    | c :: rest =>
      if c = '"' then some ([], rest)
      else if c = '\\' then
        match rest with
        | [] => none
        | e :: rest2 =>
          if e = 'u' then
            match parseHex4 rest2 with
            | none => none
            | some (hi, rest3) =>
              if 0xD800 ≤ hi ∧ hi ≤ 0xDBFF then
                match rest3 with
                | '\\' :: 'u' :: rest4 =>
                  match parseHex4 rest4 with
                  | some (lo, rest5) =>
                    if 0xDC00 ≤ lo ∧ lo ≤ 0xDFFF then
                      match parseStringBody n rest5 with
                      | some (l, r) =>
                        some (Char.ofNat (0x10000 + (hi - 0xD800) * 0x400 + (lo - 0xDC00)) :: l, r)
                      | none => none
                    else
                      match parseStringBody n rest3 with
                      | some (l, r) => some (Char.ofNat hi :: l, r)
                      | none => none
                  | none =>
                    match parseStringBody n rest3 with
                    | some (l, r) => some (Char.ofNat hi :: l, r)
                    | none => none
                | _ =>
                  match parseStringBody n rest3 with
                  | some (l, r) => some (Char.ofNat hi :: l, r)
                  | none => none
              else
                match parseStringBody n rest3 with
                | some (l, r) => some (Char.ofNat hi :: l, r)
                | none => none
          else
            match escChar e with
            | some ec =>
              match parseStringBody n rest2 with
              | some (l, r) => some (ec :: l, r)
              | none => none
            | none => none
      else if c.toNat < 32 then none
      else
        match parseStringBody n rest with
        | some (l, r) => some (c :: l, r)
        | none => none

/-- Digits to their value. -/
def digitsToNat (ds : List Char) : Nat :=
  ds.foldl (fun a c => a * 10 + (c.toNat - '0'.toNat)) 0

/-- A JSON number (or the `Infinity` / `-Infinity` constants Python accepts),
starting at its first character.  Integer lexemes become `pyint`; lexemes
with a fraction or exponent become `pyfloat` carrying the lexeme. -/
def parseNumberChars (cs : List Char) : Option (PyVal × List Char) :=
  let (neg, cs1) := match cs with
    | '-' :: t => (true, t)
    | _ => (false, cs)
  match List.isPrefixOf? "Infinity".toList cs1 with
  | some rest => some (PyVal.pyfloat (if neg then "-Infinity" else "Infinity"), rest)
  | none =>
    let (ds, rest) := cs1.span Char.isDigit
    if ds.isEmpty then none
    else if ds.length > 1 ∧ ds.headD '0' = '0' then none
    else
      let intRaw := (if neg then ['-'] else []) ++ ds
      match rest with
      | '.' :: r2 =>
        let (fs, rest2) := r2.span Char.isDigit
        if fs.isEmpty then none
        else
          match rest2 with
          | e :: r3 =>
            if e = 'e' ∨ e = 'E' then
              match parseExpPart r3 with
              | some (es, rest3) =>
                some (PyVal.pyfloat (String.mk (intRaw ++ '.' :: fs ++ e :: es)), rest3)
              | none => none
            else some (PyVal.pyfloat (String.mk (intRaw ++ '.' :: fs)), rest2)
          | [] => some (PyVal.pyfloat (String.mk (intRaw ++ '.' :: fs)), [])
      | e :: r3 =>
        if e = 'e' ∨ e = 'E' then
          match parseExpPart r3 with
          | some (es, rest3) =>
            some (PyVal.pyfloat (String.mk (intRaw ++ e :: es)), rest3)
          | none => none
        else
          some (PyVal.pyint (if neg then -(digitsToNat ds : Int) else (digitsToNat ds : Int)), rest)
      | [] =>
        some (PyVal.pyint (if neg then -(digitsToNat ds : Int) else (digitsToNat ds : Int)), [])
where
  /-- Exponent part after the `e`/`E`: optional sign, then digits. -/
  parseExpPart (cs : List Char) : Option (List Char × List Char) :=
    let (sgn, cs1) := match cs with
      | '+' :: t => (['+'], t)
      | '-' :: t => (['-'], t)
      | _ => (([] : List Char), cs)
    let (es, rest) := cs1.span Char.isDigit
    if es.isEmpty then none else some (sgn ++ es, rest)

mutual

/-- One JSON value, fuel-indexed: Python's recursive-descent `json.loads`
scanner in strict mode (accepting the `NaN`/`Infinity` extensions). -/
def parseValue : Nat → List Char → Option (PyVal × List Char)
  | 0, _ => none
  | Nat.succ n, cs =>
    match skipWs cs with
    | [] => none
    | c :: rest =>
      if c = '"' then
        match parseStringBody (rest.length + 1) rest with
        | some (l, r) => some (PyVal.pystr (String.mk l), r)
        | none => none
      else if c = '[' then parseArrayRest n rest
      else if c = '\x7b' then parseObjRest n rest
      else if c = 't' then
        match List.isPrefixOf? "rue".toList rest with
        | some r => some (PyVal.pybool true, r)
        | none => none
      else if c = 'f' then
        match List.isPrefixOf? "alse".toList rest with
        | some r => some (PyVal.pybool false, r)
        | none => none
      else if c = 'n' then
        match List.isPrefixOf? "ull".toList rest with
        | some r => some (PyVal.pynone, r)
        | none => none
      else if c = 'N' then
        match List.isPrefixOf? "aN".toList rest with
        | some r => some (PyVal.pyfloat "NaN", r)
        | none => none
      else parseNumberChars (c :: rest)

/-- The rest of a JSON array, after the opening bracket. -/
def parseArrayRest : Nat → List Char → Option (PyVal × List Char)
  | 0, _ => none
  | Nat.succ n, cs =>
    match skipWs cs with
    | ']' :: rest => some (PyVal.pylist [], rest)
    | _ =>
      match parseValue n cs with
      | some (v, r) => parseArrayTail n [v] r
      | none => none

/-- Items of a JSON array after the first, accumulated in reverse. -/
def parseArrayTail : Nat → List PyVal → List Char → Option (PyVal × List Char)
  | 0, _, _ => none
  | Nat.succ n, acc, cs =>
    match skipWs cs with
    | ']' :: rest => some (PyVal.pylist acc.reverse, rest)
    | ',' :: rest =>
      match parseValue n rest with
      | some (v, r) => parseArrayTail n (v :: acc) r
      | none => none
    | _ => none

/-- One `"key": value` pair of a JSON object. -/
def parsePair : Nat → List Char → Option ((String × PyVal) × List Char)
  | 0, _ => none
  | Nat.succ n, cs =>
    match skipWs cs with
    | '"' :: rest =>
      match parseStringBody (rest.length + 1) rest with
      | some (k, r1) =>
        match skipWs r1 with
        | ':' :: r2 =>
          match parseValue n r2 with
          | some (v, r3) => some ((String.mk k, v), r3)
          | none => none
        | _ => none
      | none => none
    | _ => none

/-- The rest of a JSON object, after the opening brace. -/
def parseObjRest : Nat → List Char → Option (PyVal × List Char)
  | 0, _ => none
  | Nat.succ n, cs =>
    match skipWs cs with
    | '\x7d' :: rest => some (PyVal.pydict [], rest)
    | _ =>
      match parsePair n cs with
      | some (p, r) => parseObjTail n [p] r
      | none => none

/-- Pairs of a JSON object after the first, accumulated in reverse. -/
def parseObjTail : Nat → List (String × PyVal) → List Char → Option (PyVal × List Char)
  | 0, _, _ => none
  | Nat.succ n, acc, cs =>
    match skipWs cs with
    | '\x7d' :: rest => some (PyVal.pydict acc.reverse, rest)
    | ',' :: rest =>
      match parsePair n rest with
      | some (p, r) => parseObjTail n (p :: acc) r
      | none => none
    | _ => none

end

/-- Python's `json.loads`: parse one JSON document, requiring only
whitespace after it; any failure is a `JSONDecodeError`, modelled as
`none`.  The fuel bound is generous: the parser spends at most two fuel
units per consumed character. -/
def json.loads (s : String) : Option PyVal :=
  match parseValue (2 * s.length + 4) s.toList with
  | some (v, r) => if (skipWs r).isEmpty then some v else none
  | none => none

/-- One hexadecimal digit character. -/
def hexDigit (n : Nat) : Char :=
  if n < 10 then Char.ofNat ('0'.toNat + n) else Char.ofNat ('a'.toNat + (n - 10))

/-- Four-digit hexadecimal rendering, as in a `\uXXXX` escape. -/
def hex4 (n : Nat) : List Char :=
  [hexDigit (n / 4096 % 16), hexDigit (n / 256 % 16), hexDigit (n / 16 % 16), hexDigit (n % 16)]

/-- `json.dumps` escaping of one string character, with the default
`ensure_ascii=True`: quote, backslash and everything outside `0x20`–`0x7e`
is escaped; astral characters become a surrogate pair. -/
def dumpsStrChar (c : Char) : List Char :=
  if c = '"' then ['\\', '"']
  else if c = '\\' then ['\\', '\\']
  else if c = '\n' then ['\\', 'n']
  else if c = '\r' then ['\\', 'r']
  else if c = '\t' then ['\\', 't']
  else if c.toNat = 8 then ['\\', 'b']
  else if c.toNat = 12 then ['\\', 'f']
  else if c.toNat < 32 ∨ c.toNat > 126 then
    if c.toNat ≤ 0xFFFF then '\\' :: 'u' :: hex4 c.toNat
    else
      '\\' :: 'u' :: hex4 (0xD800 + (c.toNat - 0x10000) / 0x400) ++
        '\\' :: 'u' :: hex4 (0xDC00 + (c.toNat - 0x10000) % 0x400)
  else [c]

/-- A dumped string literal. -/
def dumpsStr (s : String) : List Char :=
  '"' :: (s.toList.map dumpsStrChar).flatten ++ ['"']

mutual

/-- Python's `json.dumps` with its defaults (`ensure_ascii=True`, item
separator `", "`, key separator `": "`), producing the character list of
the serialized document.  Floats are emitted as their carried lexeme. -/
def dumpsChars : PyVal → List Char
  | PyVal.pynone => ['n', 'u', 'l', 'l']
  | PyVal.pybool true => ['t', 'r', 'u', 'e']
  | PyVal.pybool false => ['f', 'a', 'l', 's', 'e']
  | PyVal.pyint n => (toString n).toList
  | PyVal.pyfloat raw => raw.toList
  | PyVal.pystr s => dumpsStr s
  | PyVal.pylist l => '[' :: dumpsList l ++ [']']
  | PyVal.pydict l => '\x7b' :: dumpsPairs l ++ ['\x7d']

/-- Array items, `", "`-separated. -/
def dumpsList : List PyVal → List Char
  | [] => []
  | [v] => dumpsChars v
  | v :: w :: rest => dumpsChars v ++ ',' :: ' ' :: dumpsList (w :: rest)

/-- Object pairs, `", "`-separated with `": "` after each key. -/
def dumpsPairs : List (String × PyVal) → List Char
  | [] => []
  | [(k, v)] => dumpsStr k ++ ':' :: ' ' :: dumpsChars v
  | (k, v) :: p :: rest => dumpsStr k ++ ':' :: ' ' :: dumpsChars v ++ ',' :: ' ' :: dumpsPairs (p :: rest)

end

/-- Python's `json.dumps` on the values this service serializes. -/
def json.dumps (v : PyVal) : String :=
  String.mk (dumpsChars v)

/-- Python truthiness (`bool(x)`), as used by the route handlers' `if`
tests and `.get(...)` guards.  For a float lexeme: zero iff every mantissa
digit is `0` (`NaN`/`Infinity` carry no mantissa digits and are truthy). -/
def truthy : PyVal → Bool
  | PyVal.pynone => false
  | PyVal.pybool b => b
  | PyVal.pyint n => n ≠ 0
  | PyVal.pyfloat raw =>
    let m := (raw.toList.takeWhile fun c => ¬(c = 'e' ∨ c = 'E')).filter Char.isDigit
    m.isEmpty || m.any (· ≠ '0')
  | PyVal.pystr s => s ≠ ""
  | PyVal.pylist l => ¬l.isEmpty
  | PyVal.pydict l => ¬l.isEmpty

/-- A JSON request body (a Python dict): key/value pairs with distinct keys,
looked up by key.  `lookup` distinguishes a missing key (`none`) from a key
present with the JSON value `null` (`some PyVal.pynone`), matching
`'k' in data` versus `data['k'] is None`. -/
def Payload := List (String × PyVal)

/-- `data.get(k)`: the value at `k`, or Python `None` when the key is
missing. -/
def Payload.get (data : Payload) (k : String) : PyVal :=
  (List.lookup k data).getD PyVal.pynone

/-- `k in data`. -/
def Payload.hasKey (data : Payload) (k : String) : Bool :=
  (List.lookup k data).isSome

/-- One row of the `developer_tools` table (`src/models/tool.py`,
`src/import_data.py`).  SQLite's flexible typing lets any value reach a
`Text` column through the unvalidated API payloads, so column contents are
modelled as `PyVal`; `id` is the integer primary key and the two
timestamps are modelled as abstract instants (`Nat`), set by the column
defaults at insert and refreshed by `onupdate` at update. -/
structure DeveloperTool where
  id : Int
  name : PyVal
  category : PyVal
  description : PyVal
  url : PyVal
  frameworks : PyVal
  supported_languages : PyVal
  features : PyVal
  native_integrations : PyVal
  verified_integrations : PyVal
  notable_strengths : PyVal
  known_limitations : PyVal
  maturity_score : PyVal
  popularity_score : PyVal
  pricing : PyVal
  created_at : Nat
  updated_at : Nat

/-- `DeveloperTool._parse_json_field` (`src/models/tool.py:36-45`): `None`
and the literal `"Not specified"` give `[]`; a `str` is handed to
`json.loads`, whose result is returned as-is, with a `JSONDecodeError`
caught into `[]`; a non-`str` is returned if it is a `list`, else `[]`. -/
def _parse_json_field (field_value : PyVal) : PyVal :=
  match field_value with
  | PyVal.pynone => PyVal.pylist []
  | PyVal.pystr s =>
    if s = "Not specified" then PyVal.pylist []
    else
      match json.loads s with
      | some v => v
      | none => PyVal.pylist []
  | PyVal.pylist l => PyVal.pylist l
  | _ => PyVal.pylist []

/-- `DeveloperTool._serialize_json_field` (`src/models/tool.py:47-53`):
`None` stays `None`, a `list` is `json.dumps`-ed, anything else passes
through unchanged. -/
def _serialize_json_field (field_value : PyVal) : PyVal :=
  match field_value with
  | PyVal.pynone => PyVal.pynone
  | PyVal.pylist l => PyVal.pystr (json.dumps (PyVal.pylist l))
  | v => v

/-- `datetime.isoformat()` on an abstract instant: some textual rendering;
only which instant is rendered matters to the claims. -/
def isoformat (t : Nat) : PyVal :=
  PyVal.pystr (toString t)

/-- `DeveloperTool.to_dict` (`src/models/tool.py:55-74`): the full outbound
JSON representation, in the source's key order. -/
def to_dict (t : DeveloperTool) : List (String × PyVal) :=
  [("id", PyVal.pyint t.id),
   ("name", t.name),
   ("category", t.category),
   ("description", t.description),
   ("url", t.url),
   ("frameworks", _parse_json_field t.frameworks),
   ("supported_languages", _parse_json_field t.supported_languages),
   ("features", _parse_json_field t.features),
   ("native_integrations", _parse_json_field t.native_integrations),
   ("verified_integrations", _parse_json_field t.verified_integrations),
   ("notable_strengths", _parse_json_field t.notable_strengths),
   ("known_limitations", _parse_json_field t.known_limitations),
   ("maturity_score", t.maturity_score),
   ("popularity_score", t.popularity_score),
   ("pricing", t.pricing),
   ("created_at", isoformat t.created_at),
   ("updated_at", isoformat t.updated_at)]

/-- `DeveloperTool.to_summary_dict` (`src/models/tool.py:76-86`). -/
def to_summary_dict (t : DeveloperTool) : List (String × PyVal) :=
  [("id", PyVal.pyint t.id),
   ("name", t.name),
   ("category", t.category),
   ("description", t.description),
   ("url", t.url),
   ("maturity_score", t.maturity_score),
   ("popularity_score", t.popularity_score)]

/-- A `DeveloperTool` instance before it is committed: the fields
`from_dict` assigns.  `id` and the timestamps are store-assigned at
insert. -/
structure DraftTool where
  name : PyVal
  category : PyVal
  description : PyVal
  url : PyVal
  frameworks : PyVal
  supported_languages : PyVal
  features : PyVal
  native_integrations : PyVal
  verified_integrations : PyVal
  notable_strengths : PyVal
  known_limitations : PyVal
  maturity_score : PyVal
  popularity_score : PyVal
  pricing : PyVal

/-- `DeveloperTool.from_dict` (`src/models/tool.py:88-106`): fields are
copied from the payload with `data.get`, the seven array fields through
`_serialize_json_field`; no other normalization or validation happens. -/
def from_dict (data : Payload) : DraftTool :=
  { name := data.get "name"
    category := data.get "category"
    description := data.get "description"
    url := data.get "url"
    frameworks := _serialize_json_field (data.get "frameworks")
    supported_languages := _serialize_json_field (data.get "supported_languages")
    features := _serialize_json_field (data.get "features")
    native_integrations := _serialize_json_field (data.get "native_integrations")
    verified_integrations := _serialize_json_field (data.get "verified_integrations")
    notable_strengths := _serialize_json_field (data.get "notable_strengths")
    known_limitations := _serialize_json_field (data.get "known_limitations")
    maturity_score := data.get "maturity_score"
    popularity_score := data.get "popularity_score"
    pricing := data.get "pricing" }

/-- The whitespace stripped by Python's `str.strip()` (its ASCII part —
the data at hand is ASCII). -/
def pyWs (c : Char) : Bool :=
  c = ' ' || c = '\t' || c = '\n' || c = '\r' || c = '\x0b' || c = '\x0c'

/-- `str.strip()` on a character list. -/
def stripChars (cs : List Char) : List Char :=
  ((cs.dropWhile pyWs).reverse.dropWhile pyWs).reverse

/-- Python's `s.strip()`. -/
def pyStrip (s : String) : String :=
  String.mk (stripChars s.toList)

/-- Python's `s.split(',')` on a character list: every comma separates,
so empty pieces are kept and the empty input gives one empty piece. -/
def splitCommas : List Char → List (List Char)
  | [] => [[]]
  | c :: rest =>
    if c = ',' then [] :: splitCommas rest
    else
      match splitCommas rest with
      | h :: t => (c :: h) :: t
      | [] => [[c]]

/-- Python's `s.split(',')`. -/
def pySplitComma (s : String) : List String :=
  (splitCommas s.toList).map String.mk

/-- `parse_array_field` (`src/import_data.py:59-66`), the bulk importer's
array-field parser over a CSV cell (`None` models a missing column):
falsy (`None`/empty) or stripped-`"Not specified"` input gives `[]`;
otherwise the cell is split on commas, each piece stripped, empty pieces
dropped.  No structured-array parsing is attempted. -/
def parse_array_field (field_value : Option String) : List String :=
  match field_value with
  | none => []
  | some s =>
    if s = "" then []
    else if pyStrip s = "Not specified" then []
    else ((pySplitComma s).map pyStrip).filter (· ≠ "")

/-- After a leading digit, `int(...)` accepts further digits with single
underscores allowed between digits only. -/
def groupedTail : List Char → Bool
  | [] => true
  | '_' :: d :: rest => d.isDigit && groupedTail rest
  | '_' :: [] => false
  | d :: rest => d.isDigit && groupedTail rest

/-- The digit part accepted by Python's `int(...)`: digits, with single
underscores permitted as group separators between digits (`1_0` is `10`;
`_1`, `1_` and `1__0` are rejected). -/
def groupedDigits : List Char → Bool
  | [] => false
  | c :: rest => c.isDigit && groupedTail rest

/-- `int(s)` on a CSV cell: Python accepts surrounding whitespace, an
optional sign, and underscore-grouped digits. -/
def pyIntOfString (s : String) : Option Int :=
  let t := (pyStrip s).toList
  let (neg, ds) := match t with
    | '-' :: rest => (true, rest)
    | '+' :: rest => (false, rest)
    | rest => (false, rest)
  if groupedDigits ds then
    some (if neg then -(digitsToNat (ds.filter Char.isDigit) : Int)
      else (digitsToNat (ds.filter Char.isDigit) : Int))
  else none

/-- `parse_score_field` (`src/import_data.py:68-77`): falsy or
`"Not specified"` gives `None`; otherwise parse as `int`, keeping the value
only when it lies in `[1, 10]`; any parse failure gives `None`. -/
def parse_score_field (field_value : Option String) : Option Int :=
  match field_value with
  | none => none
  | some s =>
    if s = "" then none
    else if pyStrip s = "Not specified" then none
    else
      match pyIntOfString s with
      | some score => if 1 ≤ score ∧ score ≤ 10 then some score else none
      | none => none

/-- SQL `LIKE` on character lists (pattern first): `%` matches any run —
equivalently, the rest of the pattern matches some suffix — `_` any single
character; other pattern characters match themselves. -/
def likeChars : List Char → List Char → Bool
  | [], s => s.isEmpty
  | c :: ps, s =>
    if c = '%' then s.tails.any fun s1 => likeChars ps s1
    else
      match s with
      | [] => false
      | d :: s1 => (c = '_' || c = d) && likeChars ps s1

/-- Lower-cased character list of a string (SQLite's ASCII-only case
folding for `LIKE`, which also matches Python `.lower()` on the ASCII data
at hand). -/
def lowerL (s : String) : List Char :=
  s.toList.map Char.toLower

/-- Python's `s.lower()`. -/
def pyLower (s : String) : String :=
  String.mk (lowerL s)

/-- `column.ilike(f'%{needle}%')` applied to a stored value: a
case-insensitive `LIKE` against the pattern `%needle%`.  `NULL` never
matches; non-text stored contents (reachable only through unvalidated
payloads) are likewise treated as no-match. -/
def colLike (v : PyVal) (needle : String) : Bool :=
  match v with
  | PyVal.pystr s => likeChars ('%' :: (lowerL needle ++ ['%'])) (lowerL s)
  | _ => false

/-- SQL `column >= m` on a stored score: `NULL` does not satisfy it; an
integer compares numerically; other stored shapes (reachable only through
unvalidated payloads) are treated as not satisfying. -/
def scoreGe (v : PyVal) (m : Int) : Bool :=
  match v with
  | PyVal.pyint n => m ≤ n
  | _ => false

/-- Case-insensitive substring test on character lists, by direct
recursion: the needle is a prefix of some suffix of the haystack. -/
def isSubstring (needle hay : List Char) : Bool :=
  match hay with
  | [] => needle.isEmpty
  | _ :: t => needle.isPrefixOf hay || isSubstring needle t

/-- The table contents plus the primary-key allocator. -/
structure Store where
  tools : List DeveloperTool
  next_id : Int

/-- Outcome of a mutating endpoint, with the HTTP status it maps to.
`internalError` is an exception the handler does not catch — e.g. an
`IntegrityError` raised by `db.session.commit()` — which the framework
turns into a 500 response. -/
inductive EndpointResult where
  | created : List (String × PyVal) → EndpointResult
  | ok : List (String × PyVal) → EndpointResult
  | badRequest : String → EndpointResult
  | conflict : String → EndpointResult
  | notFound : EndpointResult
  | internalError : EndpointResult

/-- `flask_sqlalchemy`'s pagination object for one page of a query:
`items` is the page slice, `total` the unpaginated row count, and
`page`/`per_page` the values after `error_out=False` sanitisation
(`page < 1` becomes `1`; `per_page < 1` becomes the default `20`).
Modelled from the library's (3.x) documented semantics — the library is a
third-party collaborator, not part of this repository. -/
structure PaginationObj where
  items : List DeveloperTool
  total : Nat
  page : Int
  per_page : Int

/-- `query.paginate(page=..., per_page=..., error_out=False)`. -/
def paginate (l : List DeveloperTool) (page per_page : Int) : PaginationObj :=
  let page1 := if page < 1 then 1 else page
  let per_page1 := if per_page < 1 then 20 else per_page
  { items := ((l.drop ((page1 - 1) * per_page1).toNat).take per_page1.toNat)
    total := l.length
    page := page1
    per_page := per_page1 }

/-- `pagination.pages`: zero when `per_page` is zero, else
`ceil(total / per_page)`. -/
def PaginationObj.pages (p : PaginationObj) : Nat :=
  if p.per_page ≤ 0 then 0
  else (p.total + p.per_page.toNat - 1) / p.per_page.toNat

/-- `pagination.has_next`: `page < pages`. -/
def PaginationObj.has_next (p : PaginationObj) : Bool :=
  p.page < (p.pages : Int)

/-- `pagination.has_prev`: `page > 1`. -/
def PaginationObj.has_prev (p : PaginationObj) : Bool :=
  1 < p.page

/-- The `pagination` object of the `GET /tools` response body.  Its
`page`/`per_page` echo the endpoint's own parsed values, not the
paginator's sanitised ones. -/
structure PaginationOut where
  page : Int
  per_page : Int
  total : Nat
  pages : Nat
  has_next : Bool
  has_prev : Bool

/-- The `GET /tools` response body. -/
structure GetToolsResponse where
  tools : List (List (String × PyVal))
  pagination : PaginationOut

/-- The category and search filters of `get_tools`
(`src/routes/tools.py:28-38`): empty or absent parameters are falsy and
apply no filter; `search` matches name, description, or the raw
`features` storage. -/
def applyListFilters (tools : List DeveloperTool) (category search : Option String) : List DeveloperTool :=
  let q1 := match category with
    | some c => if c = "" then tools else tools.filter fun t => colLike t.category c
    | none => tools
  match search with
  | some s =>
    if s = "" then q1
    else q1.filter fun t => colLike t.name s || colLike t.description s || colLike t.features s
  | none => q1

/-- `GET /tools` (`src/routes/tools.py:7-65`).  The query parameters
arrive already parsed: `none` models an absent parameter, and
`page`/`per_page` are the results of the handler's `int(...)` calls. -/
def get_tools (st : Store) (category search : Option String)
    (page_raw per_page_raw : Option Int) (summary_raw : Option String) : GetToolsResponse :=
  let page := page_raw.getD 1
  let per_page := min (per_page_raw.getD 20) 100
  let summary := pyLower (summary_raw.getD "false") = "true"
  let query := applyListFilters st.tools category search
  let pg := paginate query page per_page
  { tools := if summary then pg.items.map to_summary_dict else pg.items.map to_dict
    pagination :=
      { page := page
        per_page := per_page
        total := pg.total
        pages := pg.pages
        has_next := pg.has_next
        has_prev := pg.has_prev } }

/-- The cleaned member patterns of a comma-separated `frameworks` /
`languages` parameter: absent or empty is no list at all; otherwise split
on commas, strip each member, and keep the non-empty ones — exactly the
members for which `search_tools` builds an `ilike` filter. -/
def cleanPats (raw : Option String) : List String :=
  match raw with
  | none => []
  | some s => if s = "" then [] else ((pySplitComma s).map pyStrip).filter (· ≠ "")

/-- `if param:` over an optional string parameter followed by
`query.filter(...)`: a missing or empty parameter applies no filter. -/
def optStrFilter (param : Option String) (f : String → DeveloperTool → Bool)
    (l : List DeveloperTool) : List DeveloperTool :=
  match param with
  | some c => if c = "" then l else l.filter (f c)
  | none => l

/-- `if param:` over an optional integer parameter followed by
`query.filter(...)`: a missing — or, by Python truthiness, zero —
parameter applies no filter. -/
def optScoreFilter (param : Option Int) (f : Int → DeveloperTool → Bool)
    (l : List DeveloperTool) : List DeveloperTool :=
  match param with
  | some m => if m = 0 then l else l.filter (f m)
  | none => l

/-- The query built by `GET /tools/search` (`src/routes/tools.py:94-142`),
up to `query.all()`: each truthy parameter appends a filter; the
`frameworks`/`languages` member filters are `or_`-ed.  Note `min_maturity`
and `min_popularity` are tested with Python truthiness, so an explicit `0`
applies no filter. -/
def search_filtered (st : Store) (q : String) (category : Option String)
    (min_maturity min_popularity : Option Int)
    (frameworks_raw languages_raw : Option String) : List DeveloperTool :=
  let l1 :=
    if q = "" then st.tools
    else st.tools.filter fun t => colLike t.name q || colLike t.description q || colLike t.features q
  let l2 := optStrFilter category (fun c t => colLike t.category c) l1
  let l3 := optScoreFilter min_maturity (fun m t => scoreGe t.maturity_score m) l2
  let l4 := optScoreFilter min_popularity (fun m t => scoreGe t.popularity_score m) l3
  let fpats := cleanPats frameworks_raw
  let l5 :=
    if fpats.isEmpty then l4
    else l4.filter fun t => fpats.any fun p => colLike t.frameworks p
  let lpats := cleanPats languages_raw
  if lpats.isEmpty then l5
  else l5.filter fun t => lpats.any fun p => colLike t.supported_languages p

/-- The `GET /tools/search` response body. -/
structure SearchResponse where
  tools : List (List (String × PyVal))
  count : Nat

/-- `GET /tools/search`: the filtered rows, serialized in full, with their
count. -/
def search_tools (st : Store) (q : String) (category : Option String)
    (min_maturity min_popularity : Option Int)
    (frameworks_raw languages_raw : Option String) : SearchResponse :=
  let tools := search_filtered st q category min_maturity min_popularity frameworks_raw languages_raw
  { tools := tools.map to_dict
    count := tools.length }

/-- Insert a committed draft: the store assigns the primary key and both
timestamps. -/
def insertDraft (st : Store) (d : DraftTool) (now : Nat) : DeveloperTool × Store :=
  let t : DeveloperTool :=
    { id := st.next_id
      name := d.name
      category := d.category
      description := d.description
      url := d.url
      frameworks := d.frameworks
      supported_languages := d.supported_languages
      features := d.features
      native_integrations := d.native_integrations
      verified_integrations := d.verified_integrations
      notable_strengths := d.notable_strengths
      known_limitations := d.known_limitations
      maturity_score := d.maturity_score
      popularity_score := d.popularity_score
      pricing := d.pricing
      created_at := now
      updated_at := now }
  (t, { tools := st.tools ++ [t], next_id := st.next_id + 1 })

/-- `POST /tools` (`src/routes/tools.py:148-166`): 400 when `name` or
`category` is falsy; 409 when `filter_by(name=...)` finds an existing row
with exactly that name; otherwise `from_dict`, insert, commit, 201 with the
full record. -/
def create_tool (st : Store) (data : Payload) (now : Nat) : EndpointResult × Store :=
  if ¬truthy (data.get "name") ∨ ¬truthy (data.get "category") then
    (EndpointResult.badRequest "Name and category are required", st)
  else if st.tools.any fun t => pyEq t.name (data.get "name") then
    (EndpointResult.conflict "Tool with this name already exists", st)
  else
    let (t, st1) := insertDraft st (from_dict data) now
    (EndpointResult.created (to_dict t), st1)

/-- Whether the `PUT` handler's assignments give the row a net change:
SQLAlchemy's flush compares each assigned attribute against its committed
value (by Python `==`) and emits an UPDATE statement — which is what fires
the `updated_at` column's `onupdate` and what the UNIQUE constraint
checks — only when some assigned column actually changed. -/
def updateChanges (t : DeveloperTool) (data : Payload) : Bool :=
  (data.hasKey "name" && !pyEq (data.get "name") t.name) ||
  (data.hasKey "category" && !pyEq (data.get "category") t.category) ||
  (data.hasKey "description" && !pyEq (data.get "description") t.description) ||
  (data.hasKey "url" && !pyEq (data.get "url") t.url) ||
  (data.hasKey "frameworks" &&
    !pyEq (_serialize_json_field (data.get "frameworks")) t.frameworks) ||
  (data.hasKey "supported_languages" &&
    !pyEq (_serialize_json_field (data.get "supported_languages")) t.supported_languages) ||
  (data.hasKey "features" && !pyEq (_serialize_json_field (data.get "features")) t.features) ||
  (data.hasKey "native_integrations" &&
    !pyEq (_serialize_json_field (data.get "native_integrations")) t.native_integrations) ||
  (data.hasKey "verified_integrations" &&
    !pyEq (_serialize_json_field (data.get "verified_integrations")) t.verified_integrations) ||
  (data.hasKey "notable_strengths" &&
    !pyEq (_serialize_json_field (data.get "notable_strengths")) t.notable_strengths) ||
  (data.hasKey "known_limitations" &&
    !pyEq (_serialize_json_field (data.get "known_limitations")) t.known_limitations) ||
  (data.hasKey "maturity_score" && !pyEq (data.get "maturity_score") t.maturity_score) ||
  (data.hasKey "popularity_score" && !pyEq (data.get "popularity_score") t.popularity_score) ||
  (data.hasKey "pricing" && !pyEq (data.get "pricing") t.pricing)

/-- The field assignments of `PUT /tools/<id>`
(`src/routes/tools.py:174-202`): each field present in the payload is
assigned (array fields through `_serialize_json_field`), absent fields are
untouched; `id` and `created_at` are never assigned.  `updated_at` is
refreshed by the column's `onupdate` only when the commit actually emits
an UPDATE, i.e. only when some assigned column changed. -/
def applyUpdate (t : DeveloperTool) (data : Payload) (now : Nat) : DeveloperTool :=
  { t with
    name := if data.hasKey "name" then data.get "name" else t.name
    category := if data.hasKey "category" then data.get "category" else t.category
    description := if data.hasKey "description" then data.get "description" else t.description
    url := if data.hasKey "url" then data.get "url" else t.url
    frameworks :=
      if data.hasKey "frameworks" then _serialize_json_field (data.get "frameworks") else t.frameworks
    supported_languages :=
      if data.hasKey "supported_languages" then _serialize_json_field (data.get "supported_languages")
      else t.supported_languages
    features :=
      if data.hasKey "features" then _serialize_json_field (data.get "features") else t.features
    native_integrations :=
      if data.hasKey "native_integrations" then _serialize_json_field (data.get "native_integrations")
      else t.native_integrations
    verified_integrations :=
      if data.hasKey "verified_integrations" then _serialize_json_field (data.get "verified_integrations")
      else t.verified_integrations
    notable_strengths :=
      if data.hasKey "notable_strengths" then _serialize_json_field (data.get "notable_strengths")
      else t.notable_strengths
    known_limitations :=
      if data.hasKey "known_limitations" then _serialize_json_field (data.get "known_limitations")
      else t.known_limitations
    maturity_score := if data.hasKey "maturity_score" then data.get "maturity_score" else t.maturity_score
    popularity_score :=
      if data.hasKey "popularity_score" then data.get "popularity_score" else t.popularity_score
    pricing := if data.hasKey "pricing" then data.get "pricing" else t.pricing
    updated_at := if updateChanges t data then now else t.updated_at }

/-- Whether writing `t1` in place of row `tool_id` violates the table's
`UNIQUE` constraint on `name` (`tool.py:8`): some other row already
carries an SQL-equal name. -/
def nameCollision (st : Store) (tool_id : Int) (t1 : DeveloperTool) : Bool :=
  st.tools.any fun u => !decide (u.id = tool_id) && pyEq u.name t1.name

/-- `PUT /tools/<id>` (`src/routes/tools.py:168-205`): `get_or_404` on the
primary key, the conditional field assignments, commit, 200 with the full
record.  There is no duplicate-name check on this path: when the emitted
UPDATE carries a name another row already holds, `db.session.commit()`
raises `IntegrityError` out of the handler — an unhandled 500 — and the
stored rows are unchanged. -/
def update_tool (st : Store) (tool_id : Int) (data : Payload) (now : Nat) : EndpointResult × Store :=
  match st.tools.find? fun u => u.id = tool_id with
  | none => (EndpointResult.notFound, st)
  | some t =>
    let t1 := applyUpdate t data now
    if updateChanges t data && nameCollision st tool_id t1 then
      (EndpointResult.internalError, st)
    else
      (EndpointResult.ok (to_dict t1),
       { st with tools := st.tools.map fun u => if u.id = tool_id then t1 else u })

/-!  Spec-side definitions, written from the specification's words, for the
refinement comparisons.  They are deliberately NOT translations of the
source: each is diffed against the corresponding source-translated
definition by the theorems below.  -/

/-- Modelled from the spec's words (§4.1 `normalizeArrayField`): `null`,
empty, or the literal `"Not specified"` is empty; otherwise structured
(JSON) parsing is attempted first, falling back on failure to splitting on
commas, trimming whitespace on each element and dropping empty elements;
it never fails. -/
def normalizeArrayField_spec (raw : PyVal) : PyVal :=
  match raw with
  | PyVal.pynone => PyVal.pylist []
  | PyVal.pylist l => PyVal.pylist l
  | PyVal.pystr s =>
    if s = "" ∨ s = "Not specified" then PyVal.pylist []
    else
      match json.loads s with
      | some v => v
      | none =>
        PyVal.pylist (((((pySplitComma s).map pyStrip).filter (· ≠ "")).map PyVal.pystr))
  | _ => PyVal.pylist []

/-!  Payload lookup helpers.  -/

/-- A key missing from the payload reads as Python `None`. -/
theorem Payload.get_of_lookup_none {data : Payload} {k : String}
    (h : List.lookup k data = none) : Payload.get data k = PyVal.pynone := by
  simp [Payload.get, h]

/-- A key present in the payload reads as its value. -/
theorem Payload.get_of_lookup_some {data : Payload} {k : String} {w : PyVal}
    (h : List.lookup k data = some w) : Payload.get data k = w := by
  simp [Payload.get, h]

/-!  Claim C1 — the record reader's array-field parser.  -/

/-- C1, counterexample: on the stored text `"a, b"` (a comma-separated
cell, not valid JSON), the claimed parser — JSON first, then comma-split
fallback — yields `["a", "b"]`, but the record reader `_parse_json_field`
yields `[]`: the fallback claimed for the record reader does not exist in
it. -/
theorem C1_counterexample :
    normalizeArrayField_spec (PyVal.pystr "a, b") = PyVal.pylist [PyVal.pystr "a", PyVal.pystr "b"] ∧
    _parse_json_field (PyVal.pystr "a, b") = PyVal.pylist [] ∧
    _parse_json_field (PyVal.pystr "a, b") ≠ normalizeArrayField_spec (PyVal.pystr "a, b") := by
  refine ⟨rfl, rfl, ?_⟩
  intro h
  rw [show _parse_json_field (PyVal.pystr "a, b") = PyVal.pylist [] from rfl,
    show normalizeArrayField_spec (PyVal.pystr "a, b")
        = PyVal.pylist [PyVal.pystr "a", PyVal.pystr "b"] from rfl] at h
  injection h with h2
  exact List.noConfusion h2

/-- C1, amended: `_parse_json_field` (the array-field parser used when
reading a record) returns the empty sequence when the value is null,
empty, or the literal `"Not specified"`; otherwise it JSON-parses the
stored text and returns the parsed value; it never raises — any parse
failure yields the empty sequence.  There is no comma-split fallback on
this path (comma splitting exists only in the bulk importer's
`parse_array_field`, which never attempts JSON parsing). -/
theorem C1_amended (s : String) (v : PyVal) :
    _parse_json_field PyVal.pynone = PyVal.pylist [] ∧
    _parse_json_field (PyVal.pystr "") = PyVal.pylist [] ∧
    _parse_json_field (PyVal.pystr "Not specified") = PyVal.pylist [] ∧
    (s ≠ "Not specified" → json.loads s = none →
      _parse_json_field (PyVal.pystr s) = PyVal.pylist []) ∧
    (s ≠ "Not specified" → json.loads s = some v →
      _parse_json_field (PyVal.pystr s) = v) := by
  refine ⟨rfl, rfl, rfl, ?_, ?_⟩
  · intro hs hl
    simp [_parse_json_field, hs, hl]
  · intro hs hl
    simp [_parse_json_field, hs, hl]

/-- C1, witness for the amended theorem at concrete inputs: a malformed
cell parses to `[]`, a JSON array parses to its elements. -/
theorem C1_amended_witness :
    _parse_json_field (PyVal.pystr "oops,") = PyVal.pylist [] ∧
    _parse_json_field (PyVal.pystr "[\"a\"]") = PyVal.pylist [PyVal.pystr "a"] :=
  ⟨(C1_amended "oops," PyVal.pynone).2.2.2.1 (by decide) rfl,
   (C1_amended "[\"a\"]" (PyVal.pylist [PyVal.pystr "a"])).2.2.2.2 (by decide) rfl⟩

/-!  Claim C9 — idempotence of the array-field normalization.  -/

/-- C9, counterexample: the stored text `"5"` is valid JSON, so
`_parse_json_field` returns the number `5` — not a sequence — and
re-normalizing that output yields `[]`, not the same value: the function
is not idempotent on every input. -/
theorem C9_counterexample :
    _parse_json_field (PyVal.pystr "5") = PyVal.pyint 5 ∧
    _parse_json_field (_parse_json_field (PyVal.pystr "5")) = PyVal.pylist [] ∧
    _parse_json_field (_parse_json_field (PyVal.pystr "5")) ≠ _parse_json_field (PyVal.pystr "5") := by
  refine ⟨rfl, rfl, ?_⟩
  intro h
  rw [show _parse_json_field (_parse_json_field (PyVal.pystr "5")) = PyVal.pylist [] from rfl,
    show _parse_json_field (PyVal.pystr "5") = PyVal.pyint 5 from rfl] at h
  exact PyVal.noConfusion h

/-- C9, amended: `_parse_json_field` is idempotent on every input whose
normalization is a sequence — re-normalizing an already-normalized
sequence yields that same sequence. -/
theorem C9_amended (v : PyVal) (l : List PyVal)
    (h : _parse_json_field v = PyVal.pylist l) :
    _parse_json_field (_parse_json_field v) = _parse_json_field v := by
  rw [h]; rfl

/-- C9, witness: re-normalizing the normalization of a null field is a
no-op. -/
theorem C9_amended_witness :
    _parse_json_field (_parse_json_field PyVal.pynone) = _parse_json_field PyVal.pynone :=
  C9_amended PyVal.pynone [] rfl

/-!  Claim C4 — what `from_dict` does to an inbound payload.  -/

/-- The C4 counterexample payload: a well-formed create payload carrying
an out-of-range score and a `"Not specified"` array sentinel. -/
def c4payload : Payload :=
  [("name", PyVal.pystr "X"), ("category", PyVal.pystr "AI"),
   ("maturity_score", PyVal.pyint 15), ("frameworks", PyVal.pystr "Not specified")]

/-- C4, counterexample: `from_dict` applies no score normalization — the
out-of-range score `15` is stored as `15`, though `parse_score_field`
(the claimed normalization rule) maps `"15"` to absent — and the
`"Not specified"` array sentinel is stored verbatim rather than becoming
an empty sequence. -/
theorem C4_counterexample :
    (from_dict c4payload).maturity_score = PyVal.pyint 15 ∧
    PyVal.pyint 15 ≠ PyVal.pynone ∧
    parse_score_field (some "15") = none ∧
    (from_dict c4payload).frameworks = PyVal.pystr "Not specified" ∧
    (from_dict c4payload).frameworks ≠ PyVal.pylist [] ∧
    parse_array_field (some "Not specified") = [] := by
  refine ⟨rfl, fun h => PyVal.noConfusion h, rfl, rfl, ?_, rfl⟩
  intro h
  rw [show (from_dict c4payload).frameworks = PyVal.pystr "Not specified" from rfl] at h
  exact PyVal.noConfusion h

/-- C4, amended: `from_dict` builds the draft by copying each payload
field verbatim — no normalization at all.  The seven array fields pass
through `_serialize_json_field` (lists are JSON-dumped, everything else is
untouched); scores and scalars are copied as-is even when out of range;
and every field absent from the payload remains absent (Python `None`). -/
theorem C4_amended (data : Payload) :
    ((List.lookup "name" data = none → (from_dict data).name = PyVal.pynone) ∧
     (List.lookup "category" data = none → (from_dict data).category = PyVal.pynone) ∧
     (List.lookup "description" data = none → (from_dict data).description = PyVal.pynone) ∧
     (List.lookup "url" data = none → (from_dict data).url = PyVal.pynone) ∧
     (List.lookup "frameworks" data = none → (from_dict data).frameworks = PyVal.pynone) ∧
     (List.lookup "supported_languages" data = none →
       (from_dict data).supported_languages = PyVal.pynone) ∧
     (List.lookup "features" data = none → (from_dict data).features = PyVal.pynone) ∧
     (List.lookup "native_integrations" data = none →
       (from_dict data).native_integrations = PyVal.pynone) ∧
     (List.lookup "verified_integrations" data = none →
       (from_dict data).verified_integrations = PyVal.pynone) ∧
     (List.lookup "notable_strengths" data = none →
       (from_dict data).notable_strengths = PyVal.pynone) ∧
     (List.lookup "known_limitations" data = none →
       (from_dict data).known_limitations = PyVal.pynone) ∧
     (List.lookup "maturity_score" data = none → (from_dict data).maturity_score = PyVal.pynone) ∧
     (List.lookup "popularity_score" data = none → (from_dict data).popularity_score = PyVal.pynone) ∧
     (List.lookup "pricing" data = none → (from_dict data).pricing = PyVal.pynone)) ∧
    (∀ w, List.lookup "maturity_score" data = some w → (from_dict data).maturity_score = w) ∧
    (∀ w, List.lookup "popularity_score" data = some w → (from_dict data).popularity_score = w) ∧
    (∀ w, List.lookup "name" data = some w → (from_dict data).name = w) ∧
    (∀ w, List.lookup "frameworks" data = some w →
      (from_dict data).frameworks = _serialize_json_field w) := by
  constructor
  · refine ⟨?_, ?_, ?_, ?_, ?_, ?_, ?_, ?_, ?_, ?_, ?_, ?_, ?_, ?_⟩ <;>
      intro h <;>
      simp [from_dict, Payload.get, h, _serialize_json_field]
  · refine ⟨?_, ?_, ?_, ?_⟩ <;>
      intro w h <;>
      simp [from_dict, Payload.get, h]

/-- C4, witness: a payload carrying only an (out-of-range) score leaves
every other field absent and keeps the score verbatim. -/
theorem C4_amended_witness :
    (from_dict [("maturity_score", PyVal.pyint 15)]).name = PyVal.pynone ∧
    (from_dict [("maturity_score", PyVal.pyint 15)]).maturity_score = PyVal.pyint 15 :=
  ⟨(C4_amended [("maturity_score", PyVal.pyint 15)]).1.1 rfl,
   (C4_amended [("maturity_score", PyVal.pyint 15)]).2.1 (PyVal.pyint 15) rfl⟩

/-- A minimal concrete record, for counterexamples and witnesses. -/
def baseTool : DeveloperTool :=
  { id := 1
    name := PyVal.pystr "T"
    category := PyVal.pystr "AI"
    description := PyVal.pynone
    url := PyVal.pynone
    frameworks := PyVal.pynone
    supported_languages := PyVal.pynone
    features := PyVal.pynone
    native_integrations := PyVal.pynone
    verified_integrations := PyVal.pynone
    notable_strengths := PyVal.pynone
    known_limitations := PyVal.pynone
    maturity_score := PyVal.pynone
    popularity_score := PyVal.pynone
    pricing := PyVal.pynone
    created_at := 0
    updated_at := 0 }

/-- A second concrete record, with a different id and name. -/
def otherTool : DeveloperTool :=
  { baseTool with id := 2, name := PyVal.pystr "U", pricing := PyVal.pystr "free" }

/-!  Claim C5 — the effective `per_page` of the list endpoint.  -/

/-- C5, counterexample: requesting `per_page=0` on a two-record store is
not raised to `1` — the endpoint's effective value (echoed in the
response) is `0`, and the paginator substitutes its own default of `20`,
so both records come back where a clamp to `1` would return exactly
one. -/
theorem C5_counterexample :
    (get_tools { tools := [baseTool, otherTool], next_id := 3 }
        none none (some 1) (some 0) none).pagination.per_page = 0 ∧
    (get_tools { tools := [baseTool, otherTool], next_id := 3 }
        none none (some 1) (some 0) none).tools.length = 2 := by
  refine ⟨rfl, rfl⟩

/-- C5, amended: the effective `per_page` is `min(requested, 100)` with a
default of `20` — it is capped above at `100` but never raised to `1` from
below: a request below `1` passes through to the paginator (which
substitutes its own default of `20`) while the response echoes the
un-raised value. -/
theorem C5_amended (st : Store) (category search : Option String)
    (page_raw per_page_raw : Option Int) (summary_raw : Option String) :
    (get_tools st category search page_raw per_page_raw summary_raw).pagination.per_page
        = min (per_page_raw.getD 20) 100 ∧
    (get_tools st category search (some 1) (some 0) summary_raw).tools.length
        = min 20 (applyListFilters st.tools category search).length := by
  constructor
  · rfl
  · by_cases hsm : pyLower (summary_raw.getD "false") = "true" <;>
      simp [get_tools, paginate, hsm]

/-!  Claim C7 — duplicate-name creates conflict and leaves the store
unchanged.  -/

/-- C7: when `name` and `category` are truthy, creating a tool whose
`name` exactly equals an existing record's name (the `filter_by`
pre-check) answers Conflict and leaves the store untouched; and when no
record carries that exact name the create succeeds, growing the store by
one record — so a name differing in any way, including only in case, is
not a conflict. -/
theorem C7_duplicate_create (st : Store) (data : Payload) (now : Nat)
    (hname : truthy (data.get "name") = true)
    (hcat : truthy (data.get "category") = true) :
    ((st.tools.any fun t => pyEq t.name (data.get "name")) = true →
      create_tool st data now = (EndpointResult.conflict "Tool with this name already exists", st)) ∧
    ((st.tools.any fun t => pyEq t.name (data.get "name")) = false →
      (create_tool st data now).1
          = EndpointResult.created (to_dict (insertDraft st (from_dict data) now).1) ∧
      (create_tool st data now).2.tools.length = st.tools.length + 1) := by
  constructor
  · intro hdup
    simp [create_tool, hname, hcat, hdup]
  · intro hdup
    refine ⟨?_, ?_⟩ <;> simp [create_tool, hname, hcat, hdup, insertDraft]

/-- The create payload of the spec's "Cody" scenario. -/
def codyPayload : Payload :=
  [("name", PyVal.pystr "Cody"), ("category", PyVal.pystr "AI Coding Assistant")]

/-- The store after the first successful "Cody" create. -/
def codyStore : Store :=
  (create_tool { tools := [], next_id := 1 } codyPayload 10).2

/-- C7, witness: creating `"Cody"` twice — the second call returns
Conflict with the store (hence the record count) exactly as after the
first call; a create differing only in case (`"cody"`) instead grows the
store. -/
theorem C7_duplicate_create_witness :
    create_tool codyStore codyPayload 11
        = (EndpointResult.conflict "Tool with this name already exists", codyStore) ∧
    codyStore.tools.length = 1 ∧
    (create_tool codyStore [("name", PyVal.pystr "cody"), ("category", PyVal.pystr "AI")] 12).2.tools.length
        = codyStore.tools.length + 1 :=
  ⟨(C7_duplicate_create codyStore codyPayload 11 rfl rfl).1 rfl, rfl,
   ((C7_duplicate_create codyStore
      [("name", PyVal.pystr "cody"), ("category", PyVal.pystr "AI")] 12 rfl rfl).2 rfl).2⟩

/-!  Claim C8 — partial update: frame, `updatedAt` refresh, NotFound.  -/

/-- A two-record concrete store. -/
def twoToolStore : Store :=
  { tools := [baseTool, otherTool], next_id := 3 }

/-- C10: the update endpoint never answers Conflict — it performs no
duplicate-name check — and renaming an existing record to another existing
record's exact name makes the commit violate the storage-level unique
constraint on `name`: the call surfaces as an unhandled error (a 500, not
a 409) with the stored rows unchanged. -/
theorem C10_update_never_conflict (st : Store) (tool_id : Int) (data : Payload) (now : Nat) :
    (∀ msg, (update_tool st tool_id data now).1 ≠ EndpointResult.conflict msg) ∧
    (∀ t u, st.tools.find? (fun w => w.id = tool_id) = some t → u ∈ st.tools →
      ¬(u.id = tool_id) → pyEq u.name t.name = false →
      update_tool st tool_id [("name", u.name)] now = (EndpointResult.internalError, st)) := by
  constructor
  · intro msg
    rcases h : st.tools.find? fun u => u.id = tool_id with _ | t
    · simp [update_tool, h]
    · simp only [update_tool, h]
      split
      · simp
      · simp
  · intro t u ht hu hne hdiff
    have hchg : updateChanges t [("name", u.name)] = true := by
      simp [updateChanges, Payload.hasKey, Payload.get, List.lookup, hdiff]
    have happ : (applyUpdate t [("name", u.name)] now).name = u.name := by
      simp [applyUpdate, Payload.hasKey, Payload.get, List.lookup]
    have hcol : nameCollision st tool_id (applyUpdate t [("name", u.name)] now) = true := by
      simp only [nameCollision, List.any_eq_true]
      refine ⟨u, hu, ?_⟩
      simp [hne, happ, pyEq_refl]
    simp only [update_tool, ht]
    rw [if_pos (show (updateChanges t [("name", u.name)]
        && nameCollision st tool_id (applyUpdate t [("name", u.name)] now)) = true by
      rw [hchg, hcol]; rfl)]

/-- C10, witness: renaming record 1 of the two-record store to record 2's
name raises the unhandled constraint violation — a 500, never a 409 — and
the store is exactly as before the call. -/
theorem C10_update_never_conflict_witness :
    update_tool twoToolStore 1 [("name", otherTool.name)] 9
        = (EndpointResult.internalError, twoToolStore) :=
  (C10_update_never_conflict twoToolStore 1 [] 9).2 baseTool otherTool rfl
    (List.Mem.tail _ (List.Mem.head _)) (by decide) rfl

/-!  Claim C2 — array fields of the outbound representation.

The positive half rests on a shape property of the JSON parser: a
document whose first character is `[` can only parse to a list.  -/

/-- Whatever `parseArrayTail` returns, its value is a list. -/
theorem parseArrayTail_shape (f : Nat) :
    ∀ acc cs v r, parseArrayTail f acc cs = some (v, r) → ∃ l, v = PyVal.pylist l := by
  induction f with
  | zero =>
    intro acc cs v r h
    simp [parseArrayTail] at h
  | succ n ih =>
    intro acc cs v r h
    simp only [parseArrayTail] at h
    split at h
    · exact ⟨acc.reverse, (Prod.mk.injEq .. ▸ Option.some.inj h).1.symm⟩
    · split at h
      · exact ih _ _ _ _ h
      · exact absurd h (by simp)
    · exact absurd h (by simp)

/-- Whatever `parseArrayRest` returns, its value is a list. -/
theorem parseArrayRest_shape (f : Nat) (cs : List Char) (v : PyVal) (r : List Char)
    (h : parseArrayRest f cs = some (v, r)) : ∃ l, v = PyVal.pylist l := by
  cases f with
  | zero => simp [parseArrayRest] at h
  | succ n =>
    simp only [parseArrayRest] at h
    split at h
    · exact ⟨[], (Prod.mk.injEq .. ▸ Option.some.inj h).1.symm⟩
    · split at h
      · exact parseArrayTail_shape n _ _ _ _ h
      · exact absurd h (by simp)

/-- A JSON document whose first character is `[` can only parse to a
list. -/
theorem loads_bracket (cs : List Char) (v : PyVal)
    (h : json.loads (String.mk ('[' :: cs)) = some v) : ∃ l, v = PyVal.pylist l := by
  have hfuel : 2 * (String.mk ('[' :: cs)).length + 4 = (2 * cs.length + 5) + 1 := by
    simp [String.length]
    omega
  have hws : skipWs ('[' :: cs) = '[' :: cs := by
    simp [skipWs, jsonWs]
  simp only [json.loads, hfuel] at h
  rw [show (String.mk ('[' :: cs)).toList = '[' :: cs from rfl] at h
  simp only [parseValue, hws] at h
  rw [if_pos trivial] at h
  split at h
  · rename_i w rest hrest
    split at h
    · obtain rfl := Option.some.inj h
      exact parseArrayRest_shape _ _ _ _ hrest
    · exact absurd h (by simp)
  · exact absurd h (by simp)

/-- A serialized `null`-or-list value always reads back as a list. -/
theorem parse_serialize_shape (v : PyVal)
    (h : v = PyVal.pynone ∨ ∃ l, v = PyVal.pylist l) :
    ∃ l2, _parse_json_field (_serialize_json_field v) = PyVal.pylist l2 := by
  rcases h with rfl | ⟨l, rfl⟩
  · exact ⟨[], rfl⟩
  · have hdump : json.dumps (PyVal.pylist l) = String.mk ('[' :: (dumpsList l ++ [']'])) := by
      simp [json.dumps, dumpsChars]
    have hneq : String.mk ('[' :: (dumpsList l ++ [']'])) ≠ "Not specified" := by
      intro heq
      have h2 : '[' :: (dumpsList l ++ [']']) = "Not specified".data := congrArg String.data heq
      have h3 : ('[' :: (dumpsList l ++ [']'])).head? = "Not specified".data.head? :=
        congrArg List.head? h2
      have h4 : some '[' = some 'N' := h3
      exact absurd (Option.some.inj h4) (by decide)
    rw [show _serialize_json_field (PyVal.pylist l)
        = PyVal.pystr (json.dumps (PyVal.pylist l)) from rfl, hdump]
    cases hl : json.loads (String.mk ('[' :: (dumpsList l ++ [']']))) with
    | none => exact ⟨[], by simp [_parse_json_field, hneq, hl]⟩
    | some w =>
      obtain ⟨l2, rfl⟩ := loads_bracket _ _ hl
      exact ⟨l2, by simp [_parse_json_field, hneq, hl]⟩

/-- The shape `C2` needs of each array value in a payload: absent, null,
or a list. -/
def arrayShaped (data : Payload) (k : String) : Prop :=
  List.lookup k data = none ∨ List.lookup k data = some PyVal.pynone ∨
    ∃ l, List.lookup k data = some (PyVal.pylist l)

/-- An `arrayShaped` payload value reads (with the missing-key default) as
null or a list. -/
theorem payload_get_shape {data : Payload} {k : String} (h : arrayShaped data k) :
    Payload.get data k = PyVal.pynone ∨ ∃ l, Payload.get data k = PyVal.pylist l := by
  rcases h with h | h | ⟨l, h⟩
  · exact Or.inl (by simp [Payload.get, h])
  · exact Or.inl (by simp [Payload.get, h])
  · exact Or.inr ⟨l, by simp [Payload.get, h]⟩

/-- `to_dict` always carries a `frameworks` key. -/
theorem to_dict_lookup_frameworks (t : DeveloperTool) :
    List.lookup "frameworks" (to_dict t) = some (_parse_json_field t.frameworks) := rfl

/-- `to_dict` always carries a `supported_languages` key. -/
theorem to_dict_lookup_supported_languages (t : DeveloperTool) :
    List.lookup "supported_languages" (to_dict t)
      = some (_parse_json_field t.supported_languages) := rfl

/-- `to_dict` always carries a `features` key. -/
theorem to_dict_lookup_features (t : DeveloperTool) :
    List.lookup "features" (to_dict t) = some (_parse_json_field t.features) := rfl

/-- `to_dict` always carries a `native_integrations` key. -/
theorem to_dict_lookup_native_integrations (t : DeveloperTool) :
    List.lookup "native_integrations" (to_dict t)
      = some (_parse_json_field t.native_integrations) := rfl

/-- `to_dict` always carries a `verified_integrations` key. -/
theorem to_dict_lookup_verified_integrations (t : DeveloperTool) :
    List.lookup "verified_integrations" (to_dict t)
      = some (_parse_json_field t.verified_integrations) := rfl

/-- `to_dict` always carries a `notable_strengths` key. -/
theorem to_dict_lookup_notable_strengths (t : DeveloperTool) :
    List.lookup "notable_strengths" (to_dict t)
      = some (_parse_json_field t.notable_strengths) := rfl

/-- `to_dict` always carries a `known_limitations` key. -/
theorem to_dict_lookup_known_limitations (t : DeveloperTool) :
    List.lookup "known_limitations" (to_dict t)
      = some (_parse_json_field t.known_limitations) := rfl

/-- The record created by the C2 counterexample payload. -/
def nullTool : DeveloperTool :=
  { baseTool with
    id := 1
    name := PyVal.pystr "NullTool"
    category := PyVal.pystr "AI"
    frameworks := PyVal.pystr "null" }

/-- The C2 counterexample payload: a valid create payload whose
`frameworks` value is the string `"null"`. -/
def c2payload : Payload :=
  [("name", PyVal.pystr "NullTool"), ("category", PyVal.pystr "AI"),
   ("frameworks", PyVal.pystr "null")]

/-- C2, counterexample: a create payload may store the text `"null"` in an
array column (`_serialize_json_field` passes non-list values through), and
the created record's outbound `frameworks` is then JSON `null` — not a
sequence — refuting "never null … regardless of what value was stored". -/
theorem C2_counterexample :
    (create_tool { tools := [], next_id := 1 } c2payload 0).1
        = EndpointResult.created (to_dict nullTool) ∧
    List.lookup "frameworks" (to_dict nullTool) = some PyVal.pynone :=
  ⟨rfl, rfl⟩

/-- C2, amended: every `to_dict` carries all seven array keys, and each is
a sequence whenever the stored value is well-shaped; in particular, for
every create payload with a truthy fresh name and truthy category whose
array values are each absent, null, or a list, the created record's seven
array fields all serialize as sequences (empty when the field was
omitted).  (A payload may instead smuggle a JSON-scalar string — e.g.
`"null"` or `"5"` — into an array column, and the outbound field is then
that scalar.) -/
theorem C2_amended (st : Store) (data : Payload) (now : Nat)
    (hname : truthy (data.get "name") = true)
    (hcat : truthy (data.get "category") = true)
    (hfresh : (st.tools.any fun t => pyEq t.name (data.get "name")) = false)
    (h1 : arrayShaped data "frameworks")
    (h2 : arrayShaped data "supported_languages")
    (h3 : arrayShaped data "features")
    (h4 : arrayShaped data "native_integrations")
    (h5 : arrayShaped data "verified_integrations")
    (h6 : arrayShaped data "notable_strengths")
    (h7 : arrayShaped data "known_limitations") :
    (create_tool st data now).1
        = EndpointResult.created (to_dict (insertDraft st (from_dict data) now).1) ∧
    (∃ l, List.lookup "frameworks" (to_dict (insertDraft st (from_dict data) now).1)
        = some (PyVal.pylist l)) ∧
    (∃ l, List.lookup "supported_languages" (to_dict (insertDraft st (from_dict data) now).1)
        = some (PyVal.pylist l)) ∧
    (∃ l, List.lookup "features" (to_dict (insertDraft st (from_dict data) now).1)
        = some (PyVal.pylist l)) ∧
    (∃ l, List.lookup "native_integrations" (to_dict (insertDraft st (from_dict data) now).1)
        = some (PyVal.pylist l)) ∧
    (∃ l, List.lookup "verified_integrations" (to_dict (insertDraft st (from_dict data) now).1)
        = some (PyVal.pylist l)) ∧
    (∃ l, List.lookup "notable_strengths" (to_dict (insertDraft st (from_dict data) now).1)
        = some (PyVal.pylist l)) ∧
    (∃ l, List.lookup "known_limitations" (to_dict (insertDraft st (from_dict data) now).1)
        = some (PyVal.pylist l)) := by
  refine ⟨by simp [create_tool, hname, hcat, hfresh], ?_, ?_, ?_, ?_, ?_, ?_, ?_⟩
  · obtain ⟨l, hl⟩ := parse_serialize_shape _ (payload_get_shape h1)
    exact ⟨l, by rw [to_dict_lookup_frameworks]; exact congrArg some hl⟩
  · obtain ⟨l, hl⟩ := parse_serialize_shape _ (payload_get_shape h2)
    exact ⟨l, by rw [to_dict_lookup_supported_languages]; exact congrArg some hl⟩
  · obtain ⟨l, hl⟩ := parse_serialize_shape _ (payload_get_shape h3)
    exact ⟨l, by rw [to_dict_lookup_features]; exact congrArg some hl⟩
  · obtain ⟨l, hl⟩ := parse_serialize_shape _ (payload_get_shape h4)
    exact ⟨l, by rw [to_dict_lookup_native_integrations]; exact congrArg some hl⟩
  · obtain ⟨l, hl⟩ := parse_serialize_shape _ (payload_get_shape h5)
    exact ⟨l, by rw [to_dict_lookup_verified_integrations]; exact congrArg some hl⟩
  · obtain ⟨l, hl⟩ := parse_serialize_shape _ (payload_get_shape h6)
    exact ⟨l, by rw [to_dict_lookup_notable_strengths]; exact congrArg some hl⟩
  · obtain ⟨l, hl⟩ := parse_serialize_shape _ (payload_get_shape h7)
    exact ⟨l, by rw [to_dict_lookup_known_limitations]; exact congrArg some hl⟩

/-- C2, witness: a payload supplying one array as a list and omitting the
other six creates a record whose seven outbound array fields are all
sequences. -/
theorem C2_amended_witness :
    (create_tool { tools := [], next_id := 1 }
        [("name", PyVal.pystr "W"), ("category", PyVal.pystr "AI"),
         ("frameworks", PyVal.pylist [PyVal.pystr "React"])] 3).1
      = EndpointResult.created (to_dict (insertDraft { tools := [], next_id := 1 }
          (from_dict [("name", PyVal.pystr "W"), ("category", PyVal.pystr "AI"),
            ("frameworks", PyVal.pylist [PyVal.pystr "React"])]) 3).1) ∧
    (∃ l, List.lookup "frameworks" (to_dict (insertDraft { tools := [], next_id := 1 }
        (from_dict [("name", PyVal.pystr "W"), ("category", PyVal.pystr "AI"),
          ("frameworks", PyVal.pylist [PyVal.pystr "React"])]) 3).1) = some (PyVal.pylist l)) ∧
    (∃ l, List.lookup "supported_languages" (to_dict (insertDraft { tools := [], next_id := 1 }
        (from_dict [("name", PyVal.pystr "W"), ("category", PyVal.pystr "AI"),
          ("frameworks", PyVal.pylist [PyVal.pystr "React"])]) 3).1) = some (PyVal.pylist l)) ∧
    (∃ l, List.lookup "features" (to_dict (insertDraft { tools := [], next_id := 1 }
        (from_dict [("name", PyVal.pystr "W"), ("category", PyVal.pystr "AI"),
          ("frameworks", PyVal.pylist [PyVal.pystr "React"])]) 3).1) = some (PyVal.pylist l)) ∧
    (∃ l, List.lookup "native_integrations" (to_dict (insertDraft { tools := [], next_id := 1 }
        (from_dict [("name", PyVal.pystr "W"), ("category", PyVal.pystr "AI"),
          ("frameworks", PyVal.pylist [PyVal.pystr "React"])]) 3).1) = some (PyVal.pylist l)) ∧
    (∃ l, List.lookup "verified_integrations" (to_dict (insertDraft { tools := [], next_id := 1 }
        (from_dict [("name", PyVal.pystr "W"), ("category", PyVal.pystr "AI"),
          ("frameworks", PyVal.pylist [PyVal.pystr "React"])]) 3).1) = some (PyVal.pylist l)) ∧
    (∃ l, List.lookup "notable_strengths" (to_dict (insertDraft { tools := [], next_id := 1 }
        (from_dict [("name", PyVal.pystr "W"), ("category", PyVal.pystr "AI"),
          ("frameworks", PyVal.pylist [PyVal.pystr "React"])]) 3).1) = some (PyVal.pylist l)) ∧
    (∃ l, List.lookup "known_limitations" (to_dict (insertDraft { tools := [], next_id := 1 }
        (from_dict [("name", PyVal.pystr "W"), ("category", PyVal.pystr "AI"),
          ("frameworks", PyVal.pylist [PyVal.pystr "React"])]) 3).1) = some (PyVal.pylist l)) :=
  C2_amended { tools := [], next_id := 1 }
    [("name", PyVal.pystr "W"), ("category", PyVal.pystr "AI"),
     ("frameworks", PyVal.pylist [PyVal.pystr "React"])] 3
    rfl rfl rfl
    (Or.inr (Or.inr ⟨[PyVal.pystr "React"], rfl⟩))
    (Or.inl rfl) (Or.inl rfl) (Or.inl rfl) (Or.inl rfl) (Or.inl rfl) (Or.inl rfl)

/-!  Claim C6 — list pagination arithmetic.  -/

/-- With a positive divisor, the ceiling quotient times the divisor covers
the dividend. -/
theorem ceil_div_mul_ge (N pp : Nat) (hpp : 0 < pp) : N ≤ (N + pp - 1) / pp * pp := by
  have h2 := (Nat.div_lt_iff_lt_mul hpp).mp (Nat.lt_succ_self ((N + pp - 1) / pp))
  rw [Nat.succ_mul] at h2
  generalize (N + pp - 1) / pp * pp = M at h2 ⊢
  omega

set_option maxHeartbeats 1000000 in
/-- C6: for every store and filter set, with `N` matching records and a
valid 1-indexed `page` and a `perPage` in `[1,100]`, the list endpoint
reports `total = N` and `pages = ceil(N / perPage)`, returns exactly
`min(perPage, N - (page-1)*perPage)` records (truncated subtraction), and
a page beyond the total number of pages yields the empty sequence rather
than an error. -/
theorem C6_list_pagination (st : Store) (category search summary_raw : Option String)
    (pg pp : Nat) (hpg : 1 ≤ pg) (hpp1 : 1 ≤ pp) (hpp2 : pp ≤ 100) :
    (get_tools st category search (some (pg : Int)) (some (pp : Int)) summary_raw).pagination.total
        = (applyListFilters st.tools category search).length ∧
    (get_tools st category search (some (pg : Int)) (some (pp : Int)) summary_raw).pagination.pages
        = ((applyListFilters st.tools category search).length + pp - 1) / pp ∧
    (get_tools st category search (some (pg : Int)) (some (pp : Int)) summary_raw).tools.length
        = min pp ((applyListFilters st.tools category search).length - (pg - 1) * pp) ∧
    (((applyListFilters st.tools category search).length + pp - 1) / pp < pg →
      (get_tools st category search (some (pg : Int)) (some (pp : Int)) summary_raw).tools = []) := by
  have hmin : min ((pp : Nat) : Int) 100 = ((pp : Nat) : Int) :=
    min_eq_left (by exact_mod_cast hpp2)
  have hpg1 : ¬((pg : Int) < 1) := by omega
  have hpp0 : ¬((pp : Int) < 1) := by omega
  have hpple : ¬((pp : Int) ≤ 0) := by omega
  have hcast : (((pg : Int) - 1) * (pp : Int)).toNat = (pg - 1) * pp := by
    have h1 : ((pg : Int) - 1) * (pp : Int) = (((pg - 1) * pp : Nat) : Int) := by
      push_cast [Nat.cast_sub hpg]
      ring
    rw [h1, Int.toNat_natCast]
  refine ⟨?_, ?_, ?_, ?_⟩
  · simp [get_tools, paginate]
  · simp [get_tools, paginate, PaginationObj.pages, hmin, hpp0, hpple, if_neg]
  · by_cases hsm : pyLower (summary_raw.getD "false") = "true" <;>
      simp [get_tools, paginate, hmin, hpg1, hpp0, hsm, hcast, List.length_map,
        List.length_take, List.length_drop, Int.toNat_natCast]
  · intro hbeyond
    have hN : (applyListFilters st.tools category search).length ≤ (pg - 1) * pp := by
      have ha := ceil_div_mul_ge (applyListFilters st.tools category search).length pp hpp1
      have hb : ((applyListFilters st.tools category search).length + pp - 1) / pp * pp
          ≤ (pg - 1) * pp := Nat.mul_le_mul_right pp (by omega)
      exact le_trans ha hb
    have hdrop : (applyListFilters st.tools category search).drop ((pg - 1) * pp) = [] :=
      List.drop_eq_nil_of_le hN
    by_cases hsm : pyLower (summary_raw.getD "false") = "true" <;>
      simp [get_tools, paginate, hmin, hpg1, hpp0, hsm, hcast, hdrop]

/-- The spec's 12-record store. -/
def dozenStore : Store :=
  { tools := (List.range 12).map fun i =>
      { baseTool with id := (i : Int) + 1, name := PyVal.pystr (toString i) }
    next_id := 13 }

/-- C6, witness: `perPage=5, page=1` on the 12-record store returns
exactly 5 tools with `total = 12` and `pages = 3`; page 4 is beyond the
3 pages and returns the empty sequence. -/
theorem C6_list_pagination_witness :
    (get_tools dozenStore none none (some 1) (some 5) none).pagination.total = 12 ∧
    (get_tools dozenStore none none (some 1) (some 5) none).pagination.pages = 3 ∧
    (get_tools dozenStore none none (some 1) (some 5) none).tools.length = 5 ∧
    (get_tools dozenStore none none (some 4) (some 5) none).tools = [] := by
  have h1 := C6_list_pagination dozenStore none none none 1 5 (by decide) (by decide) (by decide)
  have h4 := C6_list_pagination dozenStore none none none 4 5 (by decide) (by decide) (by decide)
  exact ⟨h1.1, h1.2.1, h1.2.2.1, h4.2.2.2 (by decide)⟩

/-!  Claim C3 — the advanced search combines criteria with AND, lists with
OR, members matched case-insensitively as substrings.

The spec side speaks of case-insensitive substring matching; the code
side applies SQL `LIKE` with a `%…%` pattern.  The two agree exactly when
the needle contains no `LIKE` wildcard.  -/

/-- A needle whose lowercasing contains no SQL `LIKE` wildcard — on such
needles `%needle%` matching and substring containment coincide. -/
def likeSafe (s : String) : Prop :=
  '%' ∉ lowerL s ∧ '_' ∉ lowerL s

/-- `List.any` is determined by the function's values on members. -/
theorem any_congr_mem {α : Type} {l : List α} {f g : α → Bool}
    (h : ∀ a ∈ l, f a = g a) : l.any f = l.any g := by
  induction l with
  | nil => rfl
  | cons a t ih =>
    simp only [List.any_cons, h a (List.mem_cons_self a t),
      ih fun b hb => h b (List.mem_cons_of_mem a hb)]

/-- A wildcard-free pattern followed by `%` matches exactly the strings it
prefixes. -/
theorem likeChars_plain_prefix (p : List Char) (hp1 : '%' ∉ p) (hp2 : '_' ∉ p) :
    ∀ s, likeChars (p ++ ['%']) s = List.isPrefixOf p s := by
  induction p with
  | nil =>
    intro s
    rw [show (([] : List Char) ++ ['%']) = ['%'] from rfl]
    rw [show likeChars ['%'] s = s.tails.any fun s1 => likeChars [] s1 from by simp [likeChars]]
    rw [show (List.isPrefixOf ([] : List Char) s) = true from by simp [List.isPrefixOf]]
    rcases s with _ | ⟨c, s1⟩ <;> simp [List.tails, likeChars]
  | cons a p ih =>
    have ha1 : ¬(a = '%') := fun h => hp1 (h ▸ List.mem_cons_self a p)
    have ha2 : ¬(a = '_') := fun h => hp2 (h ▸ List.mem_cons_self a p)
    have hp1' : '%' ∉ p := fun h => hp1 (List.mem_cons_of_mem a h)
    have hp2' : '_' ∉ p := fun h => hp2 (List.mem_cons_of_mem a h)
    intro s
    cases s with
    | nil => simp [likeChars, ha1, List.isPrefixOf]
    | cons d s1 =>
      by_cases had : a = d
      · subst had
        simp [likeChars, ha1, ha2, ih hp1' hp2' s1, List.isPrefixOf_cons₂, beq_iff_eq]
      · simp [likeChars, ha1, ha2, had, List.isPrefixOf_cons₂, beq_iff_eq]

/-- Substring containment is prefix containment at some suffix. -/
theorem isSubstring_eq_tails (p : List Char) :
    ∀ s, isSubstring p s = s.tails.any fun s1 => List.isPrefixOf p s1 := by
  intro s
  induction s with
  | nil => cases p <;> simp [isSubstring, List.tails, List.isPrefixOf]
  | cons d s1 ih => simp [isSubstring, List.tails, List.any_cons, ih]

/-- `%needle%` matching is substring containment, for wildcard-free
needles. -/
theorem likeChars_contains_eq (p : List Char) (hp1 : '%' ∉ p) (hp2 : '_' ∉ p) :
    ∀ s, likeChars ('%' :: (p ++ ['%'])) s = isSubstring p s := by
  intro s
  rw [show likeChars ('%' :: (p ++ ['%'])) s
      = s.tails.any fun s1 => likeChars (p ++ ['%']) s1 from by simp [likeChars]]
  rw [any_congr_mem fun s1 _ => likeChars_plain_prefix p hp1 hp2 s1]
  rw [isSubstring_eq_tails p s]

/-- Case-insensitive substring test of a needle against a stored value,
following the spec's words: only text storage can match. -/
def substrCI (needle : String) (v : PyVal) : Bool :=
  match v with
  | PyVal.pystr s => isSubstring (lowerL needle) (lowerL s)
  | _ => false

/-- On a wildcard-free needle the code's `ilike('%needle%')` agrees with
the spec's case-insensitive substring matching, on every stored value. -/
theorem colLike_eq_substrCI {needle : String} (h : likeSafe needle) (v : PyVal) :
    colLike v needle = substrCI needle v := by
  cases v <;> try rfl
  exact likeChars_contains_eq (lowerL needle) h.1 h.2 _

/-- `likeSafe` is a decidable condition on the needle. -/
instance likeSafeDecidable (s : String) : Decidable (likeSafe s) :=
  inferInstanceAs (Decidable ('%' ∉ lowerL s ∧ '_' ∉ lowerL s))

/-- The criterion an `optStrFilter` stage imposes on one record. -/
def optStrPred (param : Option String) (f : String → DeveloperTool → Bool)
    (t : DeveloperTool) : Bool :=
  match param with
  | some c => decide (c = "") || f c t
  | none => true

/-- The criterion an `optScoreFilter` stage imposes on one record (when
the parameter is not the skipped `0`). -/
def optScorePred (param : Option Int) (f : Int → DeveloperTool → Bool)
    (t : DeveloperTool) : Bool :=
  match param with
  | some m => f m t
  | none => true

/-- A conditional filter is the filter of its gated predicate. -/
theorem ite_filter_eq {α : Type} (P : Prop) [Decidable P] (f : α → Bool) (l : List α) :
    (if P then l else l.filter f) = l.filter fun t => decide P || f t := by
  by_cases h : P
  · simp [h]
  · simp [h]

/-- An `optStrFilter` stage is the filter of its `optStrPred`. -/
theorem optStrFilter_eq (param : Option String) (f : String → DeveloperTool → Bool)
    (l : List DeveloperTool) :
    optStrFilter param f l = l.filter (optStrPred param f) := by
  rcases param with _ | c
  · rw [show optStrPred none f = fun _ => true from rfl]
    exact (List.filter_true l).symm
  · by_cases hc : c = ""
    · subst hc
      rw [show optStrPred (some "") f = fun _ => true from rfl]
      exact (List.filter_true l).symm
    · show (if c = "" then l else l.filter (f c)) = _
      rw [if_neg hc]
      refine List.filter_congr fun t ht => ?_
      simp [optStrPred, hc]

/-- An `optScoreFilter` stage with a non-zero parameter is the filter of
its `optScorePred`. -/
theorem optScoreFilter_eq (param : Option Int) (hz : param ≠ some 0)
    (f : Int → DeveloperTool → Bool) (l : List DeveloperTool) :
    optScoreFilter param f l = l.filter (optScorePred param f) := by
  rcases param with _ | m
  · rw [show optScorePred none f = fun _ => true from rfl]
    exact (List.filter_true l).symm
  · have hm : ¬(m = 0) := fun h => hz (by rw [h])
    show (if m = 0 then l else l.filter (f m)) = _
    rw [if_neg hm]
    rfl

/-- Modelled from the spec's words (§4.2 `search`): the records satisfying
the conjunction of all provided criteria — text across name, description
and the raw features storage; category; minimum scores; and the
`frameworks`/`languages` member lists, each matching disjunctively, every
member case-insensitively substring-matched against the serialized array
storage.  The conjunction is written in the order in which the built
query's filters compose. -/
def searchSpec (st : Store) (q : String) (category : Option String)
    (min_maturity min_popularity : Option Int)
    (frameworks_raw languages_raw : Option String) : List DeveloperTool :=
  st.tools.filter fun t =>
    (decide ((cleanPats languages_raw).isEmpty = true) ||
        (cleanPats languages_raw).any fun p => substrCI p t.supported_languages) &&
    ((decide ((cleanPats frameworks_raw).isEmpty = true) ||
        (cleanPats frameworks_raw).any fun p => substrCI p t.frameworks) &&
    (optScorePred min_popularity (fun m t => scoreGe t.popularity_score m) t &&
    (optScorePred min_maturity (fun m t => scoreGe t.maturity_score m) t &&
    (optStrPred category (fun c t => substrCI c t.category) t &&
    (decide (q = "") || (substrCI q t.name || substrCI q t.description || substrCI q t.features))))))

/-- C3, counterexample: `minMaturity = 0` is a provided criterion that no
record without a score satisfies, yet — `0` being falsy in Python — the
code skips the filter entirely and returns the record: the search result
is not the conjunction of all provided criteria. -/
theorem C3_counterexample :
    search_filtered { tools := [baseTool], next_id := 2 } "" none (some 0) none none none
        = [baseTool] ∧
    searchSpec { tools := [baseTool], next_id := 2 } "" none (some 0) none none none = [] ∧
    ([baseTool] : List DeveloperTool) ≠ [] := by
  refine ⟨rfl, rfl, by simp⟩

/-- C3, amended: provided that neither score criterion is the
Python-falsy `0` (which the code treats as not provided) and that the text,
category, and list members contain no SQL `LIKE` wildcard (`%`/`_`, under
which the code's `%…%` pattern match is exactly case-insensitive substring
matching), the search returns exactly the records satisfying the
conjunction of all provided criteria, the `frameworks`/`languages` lists
matching disjunctively against the serialized array storage. -/
theorem C3_amended (st : Store) (q : String) (category : Option String)
    (min_maturity min_popularity : Option Int)
    (frameworks_raw languages_raw : Option String)
    (hmm : min_maturity ≠ some 0) (hmp : min_popularity ≠ some 0)
    (hq : likeSafe q) (hcat : ∀ c, category = some c → likeSafe c)
    (hfw : ∀ p ∈ cleanPats frameworks_raw, likeSafe p)
    (hlg : ∀ p ∈ cleanPats languages_raw, likeSafe p) :
    search_filtered st q category min_maturity min_popularity frameworks_raw languages_raw
      = searchSpec st q category min_maturity min_popularity frameworks_raw languages_raw := by
  simp only [search_filtered]
  rw [ite_filter_eq, ite_filter_eq, ite_filter_eq,
    optScoreFilter_eq min_popularity hmp, optScoreFilter_eq min_maturity hmm,
    optStrFilter_eq]
  simp only [List.filter_filter]
  simp only [searchSpec]
  refine List.filter_congr ?_
  intro t ht
  have hcat' : optStrPred category (fun c t => colLike t.category c) t
      = optStrPred category (fun c t => substrCI c t.category) t := by
    rcases hc : category with _ | c
    · rfl
    · simp [optStrPred, colLike_eq_substrCI (hcat c hc)]
  have hfw' : ((cleanPats frameworks_raw).any fun p => colLike t.frameworks p)
      = (cleanPats frameworks_raw).any fun p => substrCI p t.frameworks :=
    any_congr_mem fun p hp => colLike_eq_substrCI (hfw p hp) t.frameworks
  have hlg' : ((cleanPats languages_raw).any fun p => colLike t.supported_languages p)
      = (cleanPats languages_raw).any fun p => substrCI p t.supported_languages :=
    any_congr_mem fun p hp => colLike_eq_substrCI (hlg p hp) t.supported_languages
  simp only [colLike_eq_substrCI hq, hcat', hfw', hlg']

/-- A record whose serialized frameworks mention React. -/
def reactTool : DeveloperTool :=
  { baseTool with
    id := 1
    name := PyVal.pystr "R"
    frameworks := PyVal.pystr "[\"React\", \"Svelte\"]" }

/-- A record whose serialized frameworks mention Vue. -/
def vueTool : DeveloperTool :=
  { baseTool with
    id := 2
    name := PyVal.pystr "V"
    frameworks := PyVal.pystr "[\"Vue\"]" }

/-- A record whose serialized frameworks mention neither. -/
def angularTool : DeveloperTool :=
  { baseTool with
    id := 3
    name := PyVal.pystr "A"
    frameworks := PyVal.pystr "[\"Angular\"]" }

/-- The three-record store of the `frameworks=React,Vue` scenario. -/
def frameworksStore : Store :=
  { tools := [reactTool, vueTool, angularTool], next_id := 4 }

/-- C3, witness: `frameworks=React,Vue` agrees with the spec-side
conjunction and returns exactly the union — the React record and the Vue
record, not the Angular one. -/
theorem C3_amended_witness :
    search_filtered frameworksStore "" none none none (some "React,Vue") none
        = searchSpec frameworksStore "" none none none (some "React,Vue") none ∧
    search_filtered frameworksStore "" none none none (some "React,Vue") none
        = [reactTool, vueTool] :=
  ⟨C3_amended frameworksStore "" none none none (some "React,Vue") none
      (by decide) (by decide) (by decide) (fun c h => nomatch h)
      (by decide) (by decide),
   rfl⟩

end StackFast
